import Mathlib

/-!
Verification of the serialized-module container format declared in
lib/Serialization/ModuleFormat.h.

The header is declarative: it fixes the file signature, the format version
pair, the block identifiers, and, per block, the record codes together with
their ordered field layouts (BCRecordLayout).  The embedding below mirrors
those declarations.  The container Reader and Writer are not part of the
source tree; where a property depends on their behavior, a definition marked
"Modelled from the spec" stands in for the missing component, following the
specification text.
-/

namespace serialization

/-- Magic number for serialized module files, a fixed four-byte sequence. -/
def SIGNATURE : List Nat := [0xE2, 0x9C, 0xA8, 0x0E]

/-- Serialized module format major version number. -/
def VERSION_MAJOR : Nat := 1

/-- Serialized module format minor version number. -/
def VERSION_MINOR : Nat := 0

/-- Fixnum with W bits, the value type underlying identifiers and offsets. -/
def Fixnum (w : Nat) : Type := Fin (2 ^ w)

/-- Identifier of a serialized declaration: Fixnum with 31 bits. -/
def DeclID : Type := Fixnum 31

/-- Identifier of a serialized type.  TypeID must be the same as DeclID
because it is stored in the same way. -/
def TypeID : Type := DeclID

/-- Offset stored in the offset tables of the index block: Fixnum with
31 bits. -/
def BitOffset : Type := Fixnum 31

/-- Scalar (fixed-width) on-disk field kinds.  The header declares the two
named aliases DeclIDField and BitOffsetField for BCFixed of width 31; the
embedding keeps them as distinct tags so that their occurrences in the
registered layouts can be traced, and recovers the shared on-disk encoding
through the width function below. -/
inductive ScalarField where
  | fixed (w : Nat)
  | declIDField
  | bitOffsetField
deriving DecidableEq

/-- Bit width of the on-disk encoding of a scalar field.  Both identifier
fields and offset fields are encoded exactly as BCFixed of width 31. -/
def ScalarField.width : ScalarField → Nat
  | .fixed w => w
  | .declIDField => 31
  | .bitOffsetField => 31

/-- On-disk field of a record layout: a scalar field, an opaque blob, or a
homogeneous trailing array of scalar fields. -/
inductive Field where
  | scalar (s : ScalarField)
  | blob
  | array (elem : ScalarField)
deriving DecidableEq

/-- DeclIDField is BCFixed of width 31, tagged as an identifier field. -/
def DeclIDField : ScalarField := .declIDField

/-- TypeIDField must be the same as DeclIDField because it is stored in the
same way. -/
def TypeIDField : ScalarField := DeclIDField

/-- BitOffsetField is BCFixed of width 31, tagged as an offset field. -/
def BitOffsetField : ScalarField := .bitOffsetField

/-- A registered record layout: the record code together with the ordered
list of its fields. -/
structure RecordLayout where
  code : Nat
  fields : List Field
deriving DecidableEq

/-- A generic record layout: the record code is not fixed by the layout but
carried in a leading scalar field. -/
structure GenericRecordLayout where
  codeField : ScalarField
  fields : List Field
deriving DecidableEq

/-- Instantiating a generic layout at a concrete record code. -/
def GenericRecordLayout.atCode (L : GenericRecordLayout) (c : Nat) :
    RecordLayout :=
  ⟨c, L.fields⟩

/-- Full field list of a generic layout, the leading code field included. -/
def GenericRecordLayout.allFields (L : GenericRecordLayout) : List Field :=
  Field.scalar L.codeField :: L.fields

/-- First block identifier available to an application of the bitstream
substrate (llvm::bitc::FIRST_APPLICATION_BLOCKID). -/
def FIRST_APPLICATION_BLOCKID : Nat := 8

/-- The control block identifier. -/
def CONTROL_BLOCK_ID : Nat := FIRST_APPLICATION_BLOCKID

/-- The input block identifier. -/
def INPUT_BLOCK_ID : Nat := CONTROL_BLOCK_ID + 1

/-- The decls-and-types block identifier. -/
def DECLS_AND_TYPES_BLOCK_ID : Nat := INPUT_BLOCK_ID + 1

/-- The index block identifier. -/
def INDEX_BLOCK_ID : Nat := DECLS_AND_TYPES_BLOCK_ID + 1

/-- The sentinel block signalling the reader to throw away the module and
reparse the source files listed in the input block. -/
def FALL_BACK_TO_TRANSLATION_UNIT_ID : Nat := 100

namespace control_block

/-- Record code of the metadata record of the control block. -/
def METADATA : Nat := 1

/-- Layout of the metadata record: major version, minor version, and a blob
of miscellaneous version information. -/
def MetadataLayout : RecordLayout :=
  ⟨METADATA, [.scalar (.fixed 16), .scalar (.fixed 16), .blob]⟩

end control_block

namespace input_block

/-- Record code of the source-file record of the input block. -/
def SOURCE_FILE : Nat := 1

/-- Layout of the source-file record: the path as a blob. -/
def SourceFileLayout : RecordLayout := ⟨SOURCE_FILE, [.blob]⟩

end input_block

namespace decls_block

/-- Record code for a builtin type. -/
def BUILTIN_TYPE : Nat := 1

/-- Record code for a name-alias type. -/
def NAME_ALIAS_TYPE : Nat := 2

/-- Record code for a struct type. -/
def STRUCT_TYPE : Nat := 3

/-- Record code for a typealias declaration. -/
def TYPE_ALIAS_DECL : Nat := 100

/-- Record code for a struct declaration. -/
def STRUCT_DECL : Nat := 101

/-- Record code for a constructor declaration. -/
def CONSTRUCTOR_DECL : Nat := 102

/-- Record code for a var declaration. -/
def VAR_DECL : Nat := 103

/-- Record code for a declaration context. -/
def DECL_CONTEXT : Nat := 254

/-- Record code for the name hack record. -/
def NAME_HACK : Nat := 255

/-- Builtin type: the name of the builtin type as a blob. -/
def BuiltinTypeLayout : RecordLayout := ⟨BUILTIN_TYPE, [.blob]⟩

/-- Name-alias type: the typealias decl. -/
def NameAliasTypeLayout : RecordLayout :=
  ⟨NAME_ALIAS_TYPE, [.scalar DeclIDField]⟩

/-- Struct type: the struct decl and the parent type. -/
def StructTypeLayout : RecordLayout :=
  ⟨STRUCT_TYPE, [.scalar DeclIDField, .scalar TypeIDField]⟩

/-- Typealias declaration: context decl, underlying type, generic flag,
implicit flag, and the trailing array of inherited types. -/
def TypeAliasLayout : RecordLayout :=
  ⟨TYPE_ALIAS_DECL,
    [.scalar DeclIDField, .scalar TypeIDField, .scalar (.fixed 1),
     .scalar (.fixed 1), .array TypeIDField]⟩

/-- Struct declaration: context decl, implicit flag, and the trailing array
of inherited types. -/
def StructLayout : RecordLayout :=
  ⟨STRUCT_DECL,
    [.scalar DeclIDField, .scalar (.fixed 1), .array TypeIDField]⟩

/-- Constructor declaration: context decl, implicit flag, and the implicit
this decl. -/
def ConstructorLayout : RecordLayout :=
  ⟨CONSTRUCTOR_DECL,
    [.scalar DeclIDField, .scalar (.fixed 1), .scalar DeclIDField]⟩

/-- Var declaration: context decl, implicit flag, never-lvalue flag, type,
getter, setter, and overridden decl. -/
def VarLayout : RecordLayout :=
  ⟨VAR_DECL,
    [.scalar DeclIDField, .scalar (.fixed 1), .scalar (.fixed 1),
     .scalar TypeIDField, .scalar DeclIDField, .scalar DeclIDField,
     .scalar DeclIDField]⟩

/-- Declaration context: the trailing array of member declarations. -/
def DeclContextLayout : RecordLayout := ⟨DECL_CONTEXT, [.array DeclIDField]⟩

/-- Names will eventually be uniqued in an identifier table, but for now
they are stored as trailing records. -/
def NameHackLayout : RecordLayout := ⟨NAME_HACK, [.blob]⟩

end decls_block

namespace index_block

/-- Record code of the type-offset table. -/
def TYPE_OFFSETS : Nat := 1

/-- Record code of the decl-offset table. -/
def DECL_OFFSETS : Nat := 2

/-- Record code of the top-level-decls record. -/
def TOP_LEVEL_DECLS : Nat := 3

/-- Generic layout shared by the two offset tables: a two-bit record
identifier field followed by the trailing array of offsets. -/
def OffsetsLayout : GenericRecordLayout :=
  ⟨.fixed 2, [.array BitOffsetField]⟩

/-- Top-level declarations: the trailing array of decl identifiers. -/
def TopLevelDeclsLayout : RecordLayout :=
  ⟨TOP_LEVEL_DECLS, [.array DeclIDField]⟩

end index_block

/-- Layouts registered in the control block. -/
def controlBlockLayouts : List RecordLayout := [control_block.MetadataLayout]

/-- Layouts registered in the input block. -/
def inputBlockLayouts : List RecordLayout := [input_block.SourceFileLayout]

/-- Layouts registered in the decls-and-types block. -/
def declsBlockLayouts : List RecordLayout :=
  [decls_block.BuiltinTypeLayout,
   decls_block.NameAliasTypeLayout,
   decls_block.StructTypeLayout,
   decls_block.TypeAliasLayout,
   decls_block.StructLayout,
   decls_block.ConstructorLayout,
   decls_block.VarLayout,
   decls_block.DeclContextLayout,
   decls_block.NameHackLayout]

/-- Layouts registered in the index block: the generic offsets layout is
instantiated at the two offset-table codes. -/
def indexBlockLayouts : List RecordLayout :=
  [index_block.OffsetsLayout.atCode index_block.TYPE_OFFSETS,
   index_block.OffsetsLayout.atCode index_block.DECL_OFFSETS,
   index_block.TopLevelDeclsLayout]

/-- The record schema registry: for every block identifier, the record
layouts registered within the block.  The fallback block registers no
records. -/
def registeredLayouts : List (Nat × List RecordLayout) :=
  [(CONTROL_BLOCK_ID, controlBlockLayouts),
   (INPUT_BLOCK_ID, inputBlockLayouts),
   (DECLS_AND_TYPES_BLOCK_ID, declsBlockLayouts),
   (INDEX_BLOCK_ID, indexBlockLayouts),
   (FALL_BACK_TO_TRANSLATION_UNIT_ID, [])]

/-- A field that is a trailing payload: a blob or a homogeneous array. -/
def Field.isPayload : Field → Bool
  | .blob => true
  | .array _ => true
  | .scalar _ => false

/-- Number of payload fields (blobs or arrays) in a field list. -/
def payloadCount (fs : List Field) : Nat :=
  (fs.filter Field.isPayload).length

/-- A field list is trailing-well-formed when every field except possibly
the last one is a plain scalar: no fixed field follows a payload. -/
def trailingPayloadOK (fs : List Field) : Bool :=
  fs.dropLast.all fun f => ! f.isPayload

/-- Whether a field is (or is an array of) the offset field kind. -/
def Field.usesBitOffset : Field → Bool
  | .scalar .bitOffsetField => true
  | .array .bitOffsetField => true
  | _ => false

end serialization

namespace serialization

/-! Modelled reader.  The source tree holds only the schema header; the
Container Reader is described by the specification: it validates the
signature, gates on the major version, honors the fallback sentinel, and
otherwise exposes a handle on the module. -/

/-- Modelled from the spec: error kinds of the Container Reader, which is
absent from the source tree. -/
inductive ErrorKind where
  | SignatureMismatch
  | VersionIncompatible
  | MalformedRecord
  | DanglingReference
  | UnknownBlockOrRecord
deriving DecidableEq

/-- Modelled from the spec: one block of an on-disk module file, reduced to
the data the Container Reader consults when classifying the file. -/
structure RawBlock where
  id : Nat
deriving DecidableEq

/-- Modelled from the spec: an on-disk module file as the Container Reader
sees it, with its leading signature bytes, the version pair of the control
block metadata record, and the sequence of blocks. -/
structure ModuleFile where
  sigBytes : List Nat
  major : Nat
  minor : Nat
  blocks : List RawBlock
deriving DecidableEq

/-- Modelled from the spec: the handle returned on a successful load. -/
structure ModuleHandle where
  blocks : List RawBlock
deriving DecidableEq

/-- Modelled from the spec: the outcome of opening a module file, with the
discard-and-reparse outcome distinct from both success and error. -/
inductive LoadOutcome where
  | Loaded (h : ModuleHandle)
  | FallbackRequested
  | Error (kind : ErrorKind)
deriving DecidableEq

/-- Modelled from the spec: the signature check of the Container Reader,
which compares the first four bytes of the file against SIGNATURE. -/
def validSignature (file : List Nat) : Bool :=
  file.take 4 == SIGNATURE

/-- Modelled from the spec: the open procedure of the Container Reader.
It checks the signature, gates on the major version, then returns the
fallback outcome whenever a fallback block is present anywhere in the
file, and a handle otherwise. -/
def openFile (f : ModuleFile) : LoadOutcome :=
  if ¬ validSignature f.sigBytes then .Error .SignatureMismatch
  else if f.major ≠ VERSION_MAJOR then .Error .VersionIncompatible
  else if f.blocks.any fun b => b.id = FALL_BACK_TO_TRANSLATION_UNIT_ID then
    .FallbackRequested
  else .Loaded ⟨f.blocks⟩

/-- Modelled from the spec: the unit in which the offset-table entries of
the index block are measured.  The Writer and Reader that produce and
consume the offset tables are absent from the source tree; the spec states
the entries are byte offsets into the declarations-and-types region. -/
inductive OffsetUnit where
  | bytes
  | bits
deriving DecidableEq

/-- Modelled from the spec: the offset-table entries are byte offsets. -/
def offsetTableUnit : OffsetUnit := .bytes

end serialization

namespace serialization

/-- Claim C1: every record kind of the decls-and-types block carries the
numeric record code and the ordered field layout the spec lists: builtin
type 1 with a name blob; name-alias type 2 with a typealias-decl
identifier; struct type 3 with a struct-decl identifier then a parent-type
identifier; typealias decl 100 with context identifier, underlying-type
identifier, two one-bit flags and a trailing array of inherited types;
struct decl 101 with context identifier, a one-bit flag and a trailing
array of inherited types; constructor decl 102 with context identifier, a
one-bit flag and an implicit-self identifier; var decl 103 with context
identifier, two one-bit flags, and type, getter, setter and overridden
identifiers; decl context 254 with a trailing array of members; name hack
255 with a name blob. -/
theorem decls_block_codes_and_layouts :
    decls_block.BuiltinTypeLayout = ⟨1, [Field.blob]⟩ ∧
    decls_block.BuiltinTypeLayout ∈ declsBlockLayouts ∧
    decls_block.NameAliasTypeLayout = ⟨2, [Field.scalar .declIDField]⟩ ∧
    decls_block.NameAliasTypeLayout ∈ declsBlockLayouts ∧
    decls_block.StructTypeLayout =
      ⟨3, [Field.scalar .declIDField, Field.scalar .declIDField]⟩ ∧
    decls_block.StructTypeLayout ∈ declsBlockLayouts ∧
    decls_block.TypeAliasLayout =
      ⟨100, [Field.scalar .declIDField, Field.scalar .declIDField,
             Field.scalar (.fixed 1), Field.scalar (.fixed 1),
             Field.array .declIDField]⟩ ∧
    decls_block.TypeAliasLayout ∈ declsBlockLayouts ∧
    decls_block.StructLayout =
      ⟨101, [Field.scalar .declIDField, Field.scalar (.fixed 1),
             Field.array .declIDField]⟩ ∧
    decls_block.StructLayout ∈ declsBlockLayouts ∧
    decls_block.ConstructorLayout =
      ⟨102, [Field.scalar .declIDField, Field.scalar (.fixed 1),
             Field.scalar .declIDField]⟩ ∧
    decls_block.ConstructorLayout ∈ declsBlockLayouts ∧
    decls_block.VarLayout =
      ⟨103, [Field.scalar .declIDField, Field.scalar (.fixed 1),
             Field.scalar (.fixed 1), Field.scalar .declIDField,
             Field.scalar .declIDField, Field.scalar .declIDField,
             Field.scalar .declIDField]⟩ ∧
    decls_block.VarLayout ∈ declsBlockLayouts ∧
    decls_block.DeclContextLayout = ⟨254, [Field.array .declIDField]⟩ ∧
    decls_block.DeclContextLayout ∈ declsBlockLayouts ∧
    decls_block.NameHackLayout = ⟨255, [Field.blob]⟩ ∧
    decls_block.NameHackLayout ∈ declsBlockLayouts ∧
    (DECLS_AND_TYPES_BLOCK_ID, declsBlockLayouts) ∈ registeredLayouts := by
  decide

/-- Claim C2: the file signature is exactly the fixed four-byte sequence
E2 9C A8 0E, a file carries a valid signature exactly when its bytes 0
through 3 are that sequence, and the sequence is a fixed constant. -/
theorem signature_fixed_bytes :
    SIGNATURE = [0xE2, 0x9C, 0xA8, 0x0E] ∧ SIGNATURE.length = 4 ∧
    (∀ file : List Nat, validSignature file = true ↔ file.take 4 = SIGNATURE) := by
  refine ⟨rfl, rfl, fun file => ?_⟩
  simp [validSignature]

/-- Witness for C2: a concrete file beginning with the signature bytes is
accepted by the signature check. -/
theorem signature_fixed_bytes_witness :
    validSignature [0xE2, 0x9C, 0xA8, 0x0E, 0, 1] = true :=
  (signature_fixed_bytes.2.2 [0xE2, 0x9C, 0xA8, 0x0E, 0, 1]).mpr (by decide)

/-- Claim C3: the two offset records of the index block, type offsets with
code 1 and decl offsets with code 2, instantiate one shared generic layout
made of a two-bit record identifier field and a trailing array of offsets;
top-level decls has code 3 with a trailing array of decl identifiers; and
all three index record codes fit in the two-bit identifier width. -/
theorem index_block_codes_and_layouts :
    index_block.TYPE_OFFSETS = 1 ∧ index_block.DECL_OFFSETS = 2 ∧
    index_block.TOP_LEVEL_DECLS = 3 ∧
    index_block.OffsetsLayout =
      ⟨ScalarField.fixed 2, [Field.array .bitOffsetField]⟩ ∧
    index_block.OffsetsLayout.atCode index_block.TYPE_OFFSETS ∈
      indexBlockLayouts ∧
    index_block.OffsetsLayout.atCode index_block.DECL_OFFSETS ∈
      indexBlockLayouts ∧
    (index_block.OffsetsLayout.atCode index_block.TYPE_OFFSETS).fields =
      (index_block.OffsetsLayout.atCode index_block.DECL_OFFSETS).fields ∧
    index_block.TopLevelDeclsLayout = ⟨3, [Field.array .declIDField]⟩ ∧
    index_block.TopLevelDeclsLayout ∈ indexBlockLayouts ∧
    index_block.TYPE_OFFSETS < 2 ^ 2 ∧ index_block.DECL_OFFSETS < 2 ^ 2 ∧
    index_block.TOP_LEVEL_DECLS < 2 ^ 2 := by
  decide

/-- Claim C4: declaration identifiers and type identifiers occupy one
shared 31-bit numeric space: the TypeID type is the DeclID type, the
TypeID on-disk field is the DeclID on-disk field, and both fields are
encoded with bit width 31. -/
theorem typeid_is_declid :
    TypeID = DeclID ∧ DeclID = Fixnum 31 ∧ TypeIDField = DeclIDField ∧
    TypeIDField.width = 31 ∧ DeclIDField.width = 31 :=
  ⟨rfl, rfl, rfl, rfl, rfl⟩

/-- Claim C5: the metadata record of the control block has record code 1
and consists, in order, of a 16-bit major version field, a 16-bit minor
version field, and a single trailing opaque blob. -/
theorem control_metadata_layout :
    control_block.METADATA = 1 ∧
    control_block.MetadataLayout =
      ⟨1, [Field.scalar (.fixed 16), Field.scalar (.fixed 16), Field.blob]⟩ ∧
    control_block.MetadataLayout ∈ controlBlockLayouts ∧
    (CONTROL_BLOCK_ID, controlBlockLayouts) ∈ registeredLayouts := by
  decide

/-- Claim C6: the offset type of the index tables is a 31-bit unsigned
quantity, its entries are byte offsets, and no registered layout outside
the index block carries an offset-typed field. -/
theorem bitoffset_width_and_usage :
    BitOffset = Fixnum 31 ∧ BitOffsetField.width = 31 ∧
    offsetTableUnit = OffsetUnit.bytes ∧
    (∀ e ∈ registeredLayouts, e.1 ≠ INDEX_BLOCK_ID →
      ∀ L ∈ e.2, ∀ fld ∈ L.fields, fld.usesBitOffset = false) :=
  ⟨rfl, rfl, rfl, by decide⟩

/-- Witness for C6: the identifier field of the var-decl layout, a layout
of the decls-and-types block, is not an offset field. -/
theorem bitoffset_width_and_usage_witness :
    Field.usesBitOffset (Field.scalar DeclIDField) = false :=
  bitoffset_width_and_usage.2.2.2 (DECLS_AND_TYPES_BLOCK_ID, declsBlockLayouts)
    (by decide) (by decide) decls_block.VarLayout (by decide)
    (Field.scalar DeclIDField) (by decide)

/-- Claim C7: every record layout registered in any block has at most one
trailing payload, a blob or a homogeneous array but never both, and no
fixed field follows the trailing payload. -/
theorem records_single_trailing_payload :
    ∀ e ∈ registeredLayouts, ∀ L ∈ e.2,
      payloadCount L.fields ≤ 1 ∧ trailingPayloadOK L.fields = true := by
  decide

/-- Witness for C7: the typealias layout, which mixes scalar fields with a
trailing array, satisfies the payload discipline. -/
theorem records_single_trailing_payload_witness :
    payloadCount decls_block.TypeAliasLayout.fields ≤ 1 ∧
    trailingPayloadOK decls_block.TypeAliasLayout.fields = true :=
  records_single_trailing_payload (DECLS_AND_TYPES_BLOCK_ID, declsBlockLayouts)
    (by decide) decls_block.TypeAliasLayout (by decide)

/-- Claim C8: the five block identities are pairwise distinct, and within
each block the registered record codes are pairwise distinct, so no pair
of a block identifier and a record code is registered twice. -/
theorem block_and_record_codes_distinct :
    (registeredLayouts.map Prod.fst).Nodup ∧
    ∀ e ∈ registeredLayouts, (e.2.map RecordLayout.code).Nodup := by
  decide

/-- Witness for C8: the record codes of the decls-and-types block are
pairwise distinct. -/
theorem block_and_record_codes_distinct_witness :
    (declsBlockLayouts.map RecordLayout.code).Nodup :=
  block_and_record_codes_distinct.2 (DECLS_AND_TYPES_BLOCK_ID, declsBlockLayouts)
    (by decide)

/-- Claim C9: a file that carries the fallback block anywhere among its
blocks opens to the fallback outcome, an outcome distinct from every
success and every error outcome, and the fallback block identifier differs
from the four normal block identifiers. -/
theorem fallback_precedence (f : ModuleFile)
    (hsig : validSignature f.sigBytes = true)
    (hver : f.major = VERSION_MAJOR)
    (hfb : (f.blocks.any fun b =>
      b.id = FALL_BACK_TO_TRANSLATION_UNIT_ID) = true) :
    openFile f = LoadOutcome.FallbackRequested ∧
    (∀ h : ModuleHandle, LoadOutcome.FallbackRequested ≠ LoadOutcome.Loaded h) ∧
    (∀ e : ErrorKind, LoadOutcome.FallbackRequested ≠ LoadOutcome.Error e) ∧
    FALL_BACK_TO_TRANSLATION_UNIT_ID ≠ CONTROL_BLOCK_ID ∧
    FALL_BACK_TO_TRANSLATION_UNIT_ID ≠ INPUT_BLOCK_ID ∧
    FALL_BACK_TO_TRANSLATION_UNIT_ID ≠ DECLS_AND_TYPES_BLOCK_ID ∧
    FALL_BACK_TO_TRANSLATION_UNIT_ID ≠ INDEX_BLOCK_ID := by
  refine ⟨?_, ?_, ?_, by decide, by decide, by decide, by decide⟩
  · simp [openFile, hsig, hver, hfb]
  · intro h hn
    cases hn
  · intro e hn
    cases hn

/-- Witness for C9: a concrete file with a valid signature, the current
major version, and one fallback block opens to the fallback outcome. -/
theorem fallback_precedence_witness :
    openFile ⟨SIGNATURE, VERSION_MAJOR, VERSION_MINOR,
      [⟨FALL_BACK_TO_TRANSLATION_UNIT_ID⟩]⟩ = LoadOutcome.FallbackRequested :=
  (fallback_precedence
    ⟨SIGNATURE, VERSION_MAJOR, VERSION_MINOR,
      [⟨FALL_BACK_TO_TRANSLATION_UNIT_ID⟩]⟩
    (by decide) (by decide) (by decide)).1

/-- Claim C10: the current format version is exactly major 1 and minor 0,
and a file carrying that version with a valid signature and no fallback
block is accepted by the modelled reader. -/
theorem current_version_one_zero :
    VERSION_MAJOR = 1 ∧ VERSION_MINOR = 0 ∧
    openFile ⟨SIGNATURE, VERSION_MAJOR, VERSION_MINOR, []⟩ =
      LoadOutcome.Loaded ⟨[]⟩ := by
  decide

end serialization
